import Mathlib

/-!
Shallow embedding of the Signal Aggregation & Risk-Scoring Pipeline
(`backend-py/hypothesis_engine.py`, class `HypothesisEngine`) and proofs about
its normalization, classification, scoring and summary stages.

Modelling conventions:
* Python `str` values are Lean `String`s; character-level operations are
  carried out on `String.data : List Char`.
* Python `dict` records become structures; a field read with
  `d.get(key, default)` where an absent key and a present-but-falsy value
  lead to the same behaviour is modelled as a `String` defaulting to `""`;
  where the two differ (distinct defaults at different call sites) the field
  is an `Option String`.
* The Oracle (`self.ai_service.query`) is abstracted: a call that can raise
  is an `Except String α` value, and oracle-dependent post-processing whose
  details no claim touches (`_generate_insight_title`, JSON decoding,
  `datetime.fromisoformat`) is abstracted as a function parameter, so every
  theorem quantifies over all possible oracle behaviours.
* Python `float` arithmetic on the small score values is modelled by exact
  rationals `ℚ`; Python `int(x)` (truncation toward zero) is `truncQ`.
-/

namespace HypothesisEngine

/-- Python `a or b` for strings: `b` when `a` is falsy (empty), else `a`. -/
def orS (a b : String) : String := if a = "" then b else a

/-- Python slicing `s[:n]`. -/
def pyTake (n : Nat) (s : String) : String := String.mk (s.data.take n)

/-- Python `str.strip()` with no arguments: drop leading and trailing whitespace. -/
def pyStripWs (l : List Char) : List Char :=
  ((l.dropWhile Char.isWhitespace).reverse.dropWhile Char.isWhitespace).reverse

/-- Python `str.strip(chars)`: drop leading and trailing characters from the given set. -/
def pyStripSet (cs : List Char) (l : List Char) : List Char :=
  ((l.dropWhile (fun c => c ∈ cs)).reverse.dropWhile (fun c => c ∈ cs)).reverse

/-- Python `str.lower()` (ASCII model of the engine's lowercasing). -/
def pyLower (s : String) : String := String.mk (s.data.map Char.toLower)

/-- Python substring test `pat in s`. -/
def isSubstring (pat : List Char) : List Char → Bool
  | [] => pat.isEmpty
  | c :: rest => pat.isPrefixOf (c :: rest) || isSubstring pat rest

/-- Python `str.replace(pat, repl)` (all occurrences, scanned left to right).
Structural recursion on fuel; the fuel `length + 1` suffices because every
step consumes at least one character when the pattern is non-empty, and all
call sites in the engine pass a non-empty pattern. -/
def pyReplaceFuel : Nat → List Char → List Char → List Char → List Char
  | 0, l, _, _ => l
  | _ + 1, [], _, _ => []
  | fuel + 1, c :: rest, pat, repl =>
    if pat ≠ [] ∧ pat.isPrefixOf (c :: rest) then
      repl ++ pyReplaceFuel fuel ((c :: rest).drop pat.length) pat repl
    else c :: pyReplaceFuel fuel rest pat repl

/-- Python `str.replace(pat, repl)`. -/
def pyReplace (l pat repl : List Char) : List Char := pyReplaceFuel (l.length + 1) l pat repl

/-- Whether a character list starts with a whitespace character. -/
def headIsWs (l : List Char) : Bool :=
  match l.head? with
  | some d => d.isWhitespace
  | none => false

/-- Python `re.split(r'[.!?]\s+', text)` from `_clean_evidence_text`: split at a
sentence delimiter that is followed by at least one whitespace character; the
delimiter and the (greedy) whitespace run are consumed.  Fuelled for structural
recursion; every step consumes at least one character. -/
def splitSentencesFuel : Nat → List Char → List Char → List (List Char)
  | 0, l, acc => [acc.reverse ++ l]
  | _ + 1, [], acc => [acc.reverse]
  | fuel + 1, c :: rest, acc =>
    if (c = '.' ∨ c = '!' ∨ c = '?') ∧ headIsWs rest then
      acc.reverse :: splitSentencesFuel fuel (rest.dropWhile Char.isWhitespace) []
    else splitSentencesFuel fuel rest (c :: acc)

/-- Sentence splitter of `_clean_evidence_text`. -/
def splitSentences (l : List Char) : List (List Char) := splitSentencesFuel (l.length + 1) l []

/-- The de-duplication loop of `_clean_evidence_text`: keep a sentence when its
lowercased, stripped form is non-empty, unseen so far, and longer than 20
characters; record the seen forms. -/
def dedupSentences : List (List Char) → List (List Char) → List (List Char)
  | [], _ => []
  | sent :: rest, seen =>
    let sl := pyStripWs (sent.map Char.toLower)
    if sl ≠ [] ∧ sl ∉ seen ∧ 20 < sl.length then
      sent :: dedupSentences rest (sl :: seen)
    else dedupSentences rest seen

/-- `_clean_evidence_text(evidence, title)`: remove a duplicated title
substring, split into sentences, drop near-duplicate/short sentences, re-join
with `'. '`, re-terminate with `'.'`, and strip. -/
def _clean_evidence_text (evidence title : String) : String :=
  let ev := if title ≠ "" ∧ isSubstring title.data evidence.data then
              pyStripWs (pyReplace evidence.data title.data []) else evidence.data
  let sentences := splitSentences ev
  let uniq := dedupSentences sentences []
  let cleaned := List.intercalate ('.' :: ' ' :: []) uniq
  let cleaned := if cleaned ≠ [] ∧ cleaned.getLast? ≠ some '.' then cleaned ++ ['.'] else cleaned
  String.mk (pyStripWs cleaned)

/-- One raw input record (a Python dict coming from the scrapers), restricted
to the alias fields the Normalizer reads.  `metadata_*` fields model
`signal.get('metadata', {}).get(...)`.  Fields read via `or`-chains with
default `''` are plain strings (absent ≡ empty); fields whose defaults differ
between call sites (`extracted_text`, `post_text`, `metadata_date`,
`source_type`) are `Option String`. -/
structure RawSignal where
  metadata_title : String := ""
  headline : String := ""
  extracted_text : Option String := none
  post_title : String := ""
  post_text : Option String := none
  source_type : Option String := none
  metadata_publish_date : String := ""
  metadata_date : Option String := none
  published_date : String := ""
  created_date : String := ""
  source_url : String := ""
  source_link : String := ""
  link : String := ""
  url : String := ""
  metadata_source_url : String := ""
  metadata_url : String := ""
  metadata_link : String := ""
  deriving DecidableEq

/-- A canonical SupportingSignal as built by the Normalizer (risk fields are
added later by the Risk Scorer, see `ScoredSupportingSignal`). -/
structure SupportingSignal where
  id : String
  title : String
  source_type : String
  timeframe : String
  evidence : String
  evidence_url : Option String
  severity : String
  deriving DecidableEq

/-- News title alias chain:
`metadata.title or headline or extracted_text[:60]`. -/
def newsFullTitle (s : RawSignal) : String :=
  orS s.metadata_title (orS s.headline (pyTake 60 (s.extracted_text.getD (""))))

/-- News date alias chain:
`metadata.publish_date or published_date or metadata.date (default 'Unknown')`. -/
def newsDate (s : RawSignal) : String :=
  orS s.metadata_publish_date (orS s.published_date (s.metadata_date.getD ("Unknown")))

/-- News evidence text: `signal.get('extracted_text', 'No content available')`. -/
def newsEvidenceText (s : RawSignal) : String := s.extracted_text.getD ("No content available")

/-- The evidence-URL alias chain shared by the news and the social loop:
`source_url or source_link or link or url or metadata.source_url or
metadata.url or metadata.link`. -/
def evidenceUrl (s : RawSignal) : String :=
  orS s.source_url (orS s.source_link (orS s.link (orS s.url
    (orS s.metadata_source_url (orS s.metadata_url s.metadata_link)))))

/-- Timeframe derivation in the news loop (its `try` block cannot raise, so
the `except` branch is dead code and not modelled). -/
def newsTimeframe (date : String) : String :=
  if date ≠ "" ∧ date ≠ "Unknown" then
    (if 'T' ∈ date.data ∨ '-' ∈ date.data then pyTake 4 date else date)
  else "Unknown"

/-- Social title alias chain: `post_title or extracted_text[:60]`. -/
def socialFullTitle (s : RawSignal) : String :=
  orS s.post_title (pyTake 60 (s.extracted_text.getD ("")))

/-- Social date alias chain: `created_date or metadata.publish_date or
metadata.date or published_date or 'Unknown'`. -/
def socialDate (s : RawSignal) : String :=
  orS s.created_date (orS s.metadata_publish_date (orS (s.metadata_date.getD (""))
    (orS s.published_date ("Unknown"))))

/-- Social evidence text: `extracted_text or post_text (default 'No content available')`. -/
def socialEvidenceText (s : RawSignal) : String :=
  orS (s.extracted_text.getD ("")) (s.post_text.getD ("No content available"))

/-- Timeframe derivation in the social loop.  `isoYear` abstracts the Python
stdlib call `datetime.fromisoformat(date.replace('Z', '+00:00')).year`
(`none` = the call raised, landing in the nested fallback `date[:4]`). -/
def socialTimeframe (isoYear : String → Option Int) (date : String) : String :=
  if date ≠ "" ∧ date ≠ "Unknown" then
    if 'T' ∈ date.data ∨ '-' ∈ date.data then
      match isoYear (String.mk (pyReplace date.data ('Z' :: [])
          ('+' :: '0' :: '0' :: ':' :: '0' :: '0' :: []))) with
      | some y => toString y
      | none => pyTake 4 date
    else pyTake 4 date
  else "Unknown"

/-- Body of the news loop of `_create_supporting_signals_from_raw_signals`.
`genTitle` abstracts `_generate_insight_title` (an oracle call whose
exception handling makes it total; its result is an arbitrary string). -/
def newsSupportingSignal (genTitle : String → String → String → String)
    (counter : Nat) (s : RawSignal) : SupportingSignal :=
  let full_title := newsFullTitle s
  let source_type := s.source_type.getD ("news")
  let date := newsDate s
  let evidence_text := newsEvidenceText s
  let insight_title := genTitle full_title evidence_text source_type
  let cleaned_evidence := _clean_evidence_text evidence_text full_title
  { id := "ss_" ++ toString counter
    title := insight_title
    source_type := source_type
    timeframe := newsTimeframe date
    evidence := pyTake 700 cleaned_evidence
    evidence_url := some (evidenceUrl s)
    severity := "medium" }

/-- Body of the social loop of `_create_supporting_signals_from_raw_signals`:
same shape as the news loop except for the alias chains, the ISO date
parsing, and the suppression of the evidence body when a URL resolved. -/
def socialSupportingSignal (genTitle : String → String → String → String)
    (isoYear : String → Option Int) (counter : Nat) (s : RawSignal) : SupportingSignal :=
  let full_title := socialFullTitle s
  let source_type := s.source_type.getD ("social")
  let date := socialDate s
  let evidence_text := socialEvidenceText s
  let insight_title := genTitle full_title evidence_text source_type
  let cleaned_evidence := _clean_evidence_text evidence_text full_title
  let cleaned_evidence := if evidenceUrl s ≠ "" then "" else cleaned_evidence
  { id := "ss_" ++ toString counter
    title := insight_title
    source_type := source_type
    timeframe := socialTimeframe isoYear date
    evidence := pyTake 700 cleaned_evidence
    evidence_url := some (evidenceUrl s)
    severity := "medium" }

/-- `_create_supporting_signals_from_raw_signals(news, social)`: the news loop
followed by the social loop, with the shared `signal_counter` starting at 1. -/
def _create_supporting_signals_from_raw_signals
    (genTitle : String → String → String → String) (isoYear : String → Option Int)
    (news social : List RawSignal) : List SupportingSignal :=
  ((List.enumFrom 1 news).map (fun p => newsSupportingSignal genTitle p.1 p.2)) ++
  ((List.enumFrom (news.length + 1) social).map
    (fun p => socialSupportingSignal genTitle isoYear p.1 p.2))

/-- The critical count validation of `analyze_company_risk` (lines 55-58):
raise `ValueError` when the normalized count differs from the input count,
otherwise continue with the normalized signals. -/
def analyze_company_risk_count_check (supporting_signals : List SupportingSignal)
    (total_input_signals : Nat) : Except String (List SupportingSignal) :=
  if supporting_signals.length ≠ total_input_signals then
    Except.error ("Supporting signal count mismatch: " ++
      toString supporting_signals.length ++ " != " ++ toString total_input_signals)
  else Except.ok supporting_signals

lemma pyTake_length_le (n : Nat) (s : String) : (pyTake n s).length ≤ n := by
  show (s.data.take n).length ≤ n
  simp [List.length_take]

/-- C1: the Normalizer emits exactly one SupportingSignal per input record, in
input order (news then social), so its output length is always
`len(news) + len(social)`; the count check of `analyze_company_risk` therefore
always succeeds on the Normalizer's output, and in general it raises a
`ValueError` if and only if the normalized count differs from the input
count — it never silently continues past a mismatch. -/
theorem normalizer_count_invariant (genTitle : String → String → String → String)
    (isoYear : String → Option Int) (news social : List RawSignal) :
    (_create_supporting_signals_from_raw_signals genTitle isoYear news social).length
        = news.length + social.length
    ∧ analyze_company_risk_count_check
        (_create_supporting_signals_from_raw_signals genTitle isoYear news social)
        (news.length + social.length)
      = Except.ok (_create_supporting_signals_from_raw_signals genTitle isoYear news social)
    ∧ (∀ (ss : List SupportingSignal) (total : Nat),
        (analyze_company_risk_count_check ss total).isOk = false ↔ ss.length ≠ total) := by
  have hlen : (_create_supporting_signals_from_raw_signals genTitle isoYear news social).length
      = news.length + social.length := by
    simp [_create_supporting_signals_from_raw_signals, List.enumFrom_length]
  refine ⟨hlen, ?_, ?_⟩
  · rw [analyze_company_risk_count_check, if_neg]
    simp [hlen]
  · intro ss total
    rw [analyze_company_risk_count_check]
    by_cases h : ss.length = total <;> simp [h, Except.isOk, Except.toBool]

/-- C9: in the social loop, a raw signal whose evidence URL resolves to a
non-empty string through the alias chain gets an empty `evidence` field (the
body is suppressed in favour of the link); social signals without a resolved
URL and all news signals keep the cleaned evidence body (truncated to 700
characters on construction). -/
theorem social_evidence_suppression (genTitle : String → String → String → String)
    (isoYear : String → Option Int) :
    (∀ (counter : Nat) (s : RawSignal), evidenceUrl s ≠ "" →
        (socialSupportingSignal genTitle isoYear counter s).evidence = "")
    ∧ (∀ (counter : Nat) (s : RawSignal), evidenceUrl s = "" →
        (socialSupportingSignal genTitle isoYear counter s).evidence =
          pyTake 700 (_clean_evidence_text (socialEvidenceText s) (socialFullTitle s)))
    ∧ (∀ (counter : Nat) (s : RawSignal),
        (newsSupportingSignal genTitle counter s).evidence =
          pyTake 700 (_clean_evidence_text (newsEvidenceText s) (newsFullTitle s))) := by
  refine ⟨?_, ?_, ?_⟩
  · intro counter s h
    show pyTake 700 (if evidenceUrl s ≠ "" then "" else _) = ""
    rw [if_pos h]
    rfl
  · intro counter s h
    show pyTake 700 (if evidenceUrl s ≠ "" then "" else _) = _
    rw [if_neg (by simp [h])]
  · intro counter s
    rfl

/-- C10: every SupportingSignal the Normalizer produces has an evidence string
of at most 700 characters (the `[:700]` truncation on construction) and is
created with the uniform default severity `"medium"`. -/
theorem normalizer_evidence_cap_and_default_severity
    (genTitle : String → String → String → String) (isoYear : String → Option Int)
    (news social : List RawSignal) :
    ∀ s ∈ _create_supporting_signals_from_raw_signals genTitle isoYear news social,
      s.evidence.length ≤ 700 ∧ s.severity = "medium" := by
  intro s hs
  rw [_create_supporting_signals_from_raw_signals] at hs
  rcases List.mem_append.mp hs with h | h
  · obtain ⟨p, -, rfl⟩ := List.mem_map.mp h
    exact ⟨pyTake_length_le 700 _, rfl⟩
  · obtain ⟨p, -, rfl⟩ := List.mem_map.mp h
    exact ⟨pyTake_length_le 700 _, rfl⟩

/-! ### Categorical Classifier and grouping (`_classify_single_signal`,
`_group_into_primary_signals`, the auditor block of `analyze_company_risk`) -/

/-- Per-primary source distribution (`{"News": _, "Social": _, "Financial": _}`). -/
structure SourceDistribution where
  news : Nat
  social : Nat
  financial : Nat
  deriving DecidableEq

/-- A primary signal (taxonomy bucket) as built by `_group_into_primary_signals`. -/
structure PrimarySignal where
  id : String
  title : String
  description : String
  risk_level : String
  supporting_signal_ids : List String
  key_indicators : List String
  source_distribution : SourceDistribution
  deriving DecidableEq

/-- `_calculate_source_distribution`: scan all supporting signals, counting the
ones whose id is assigned here into News/Social/Financial by lowercased
source type (unknown types are logged and not counted). -/
def _calculate_source_distribution (supporting_signal_ids : List String)
    (supporting_signals : List SupportingSignal) : SourceDistribution :=
  supporting_signals.foldl (fun d s =>
    if s.id ∈ supporting_signal_ids then
      let st := pyLower s.source_type
      if st = "news" ∨ st = "google_news" ∨ st = "blog" then { d with news := d.news + 1 }
      else if st = "social" ∨ st = "reddit" ∨ st = "forum" then { d with social := d.social + 1 }
      else if st = "financial" then { d with financial := d.financial + 1 }
      else d
    else d) { news := 0, social := 0, financial := 0 }

/-- The fixed 8-key taxonomy, in the construction order of the
`primary_signals` dict of `_group_into_primary_signals`. -/
def taxonomyKeys : List String :=
  ["OPERATIONAL_DEGRADATION", "FINANCIAL_DISTRESS", "WORKFORCE_ISSUES", "REGULATORY_LEGAL",
   "MARKET_PERCEPTION", "STRATEGIC_ANOMALIES", "INDUSTRY_CHALLENGES", "PRODUCT_SERVICE_ISSUES"]

/-- Static data of one taxonomy bucket (dict key plus the pre-filled fields of
its primary-signal template). -/
structure CategoryDef where
  key : String
  id : String
  title : String
  description : String
  risk_level : String
  deriving DecidableEq

/-- The eight bucket templates of `_group_into_primary_signals`, in dict order. -/
def taxonomyDefs : List CategoryDef :=
  [{ key := "OPERATIONAL_DEGRADATION", id := "ps_1", title := "OPERATIONAL DEGRADATION",
     description := "Evidence of declining operations, store closures, and business sustainability concerns",
     risk_level := "high" },
   { key := "FINANCIAL_DISTRESS", id := "ps_2", title := "FINANCIAL DISTRESS",
     description := "Indicators of financial instability, debt, losses, and poor performance",
     risk_level := "high" },
   { key := "WORKFORCE_ISSUES", id := "ps_3", title := "WORKFORCE ISSUES",
     description := "Concerns related to employee treatment, layoffs, underpayment, and labor violations",
     risk_level := "high" },
   { key := "REGULATORY_LEGAL", id := "ps_4", title := "REGULATORY/LEGAL RISKS",
     description := "Legal challenges, fines, prosecutions, and compliance issues",
     risk_level := "high" },
   { key := "MARKET_PERCEPTION", id := "ps_5", title := "MARKET PERCEPTION",
     description := "Public sentiment, reputation concerns, and customer complaints",
     risk_level := "medium" },
   { key := "STRATEGIC_ANOMALIES", id := "ps_6", title := "STRATEGIC ANOMALIES",
     description := "Management decisions, ownership changes, and strategic issues",
     risk_level := "medium" },
   { key := "INDUSTRY_CHALLENGES", id := "ps_7", title := "INDUSTRY CHALLENGES",
     description := "Market saturation, competitive pressure, and consumer trend shifts",
     risk_level := "medium" },
   { key := "PRODUCT_SERVICE_ISSUES", id := "ps_8", title := "PRODUCT/SERVICE ISSUES",
     description := "Quality decline, product defects, and service failures",
     risk_level := "medium" }]

/-- The character set of `category.strip('"\'` \n\r\t')` in
`_classify_single_signal` (double quote, single quote, backtick, space,
newline, carriage return, tab). -/
def stripCharSet : List Char :=
  [Char.ofNat 34, Char.ofNat 39, Char.ofNat 96, ' ', '\n', '\r', '\t']

/-- The response post-processing of `_classify_single_signal`: strip
whitespace; when the result starts with an opening brace, unwrap the JSON
`category` field (`unwrapCategory` abstracts `json.loads` plus
`parsed.get('category', category)`; `none` keeps the raw string, matching the
`JSONDecodeError` branch); then strip quotes/backticks/whitespace. -/
def processedCategory (unwrapCategory : String → Option String) (response : String) : String :=
  let category := String.mk (pyStripWs response.data)
  let category := if category.data.head? = some (Char.ofNat 123) then
                    (unwrapCategory category).getD category else category
  String.mk (pyStripSet stripCharSet category.data)

/-- `_classify_single_signal`: on an oracle exception return
`MARKET_PERCEPTION`; otherwise post-process the response and validate it
against the available categories, defaulting to `MARKET_PERCEPTION` when the
processed string is not one of them. -/
def _classify_single_signal (unwrapCategory : String → Option String)
    (response : Except String String) (available_categories : List String) : String :=
  match response with
  | Except.error _ => "MARKET_PERCEPTION"
  | Except.ok r =>
    let category := processedCategory unwrapCategory r
    if category ∈ available_categories then category else "MARKET_PERCEPTION"

/-- The per-signal assignment of the grouping loop: classify against
`list(primary_signals.keys())` and re-check membership (`if category in
primary_signals`), falling back to `MARKET_PERCEPTION` otherwise.
`classifyResponse` gives the oracle's response for each signal's prompt; the
broad `except` of the loop coincides with the classifier's own error branch. -/
def assignedCategory (unwrapCategory : String → Option String)
    (classifyResponse : SupportingSignal → Except String String)
    (s : SupportingSignal) : String :=
  let category := _classify_single_signal unwrapCategory (classifyResponse s) taxonomyKeys
  if category ∈ taxonomyKeys then category else "MARKET_PERCEPTION"

/-- The ids accumulated in bucket `key` by the grouping loop: the loop appends
`signal['id']` to exactly the bucket of the signal's assigned category, so a
bucket's final content is the in-order filter of the signal list. -/
def categoryIds (unwrapCategory : String → Option String)
    (classifyResponse : SupportingSignal → Except String String)
    (signals : List SupportingSignal) (key : String) : List String :=
  (signals.filter (fun s => assignedCategory unwrapCategory classifyResponse s == key)).map
    (fun s => s.id)

/-- The per-bucket step of the final loop of `_group_into_primary_signals`:
drop empty buckets, attach ids and the computed source distribution. -/
def groupMk (unwrapCategory : String → Option String)
    (classifyResponse : SupportingSignal → Except String String)
    (signals : List SupportingSignal) (cat : CategoryDef) : Option PrimarySignal :=
  if (categoryIds unwrapCategory classifyResponse signals cat.key).isEmpty then none
  else some { id := cat.id, title := cat.title, description := cat.description,
              risk_level := cat.risk_level,
              supporting_signal_ids := categoryIds unwrapCategory classifyResponse signals cat.key,
              key_indicators := [],
              source_distribution := _calculate_source_distribution
                (categoryIds unwrapCategory classifyResponse signals cat.key) signals }

/-- `_group_into_primary_signals`: classify every signal into one bucket, then
keep the non-empty buckets in taxonomy order. -/
def _group_into_primary_signals (unwrapCategory : String → Option String)
    (classifyResponse : SupportingSignal → Except String String)
    (supporting_signals : List SupportingSignal) : List PrimarySignal :=
  if supporting_signals.isEmpty then []
  else taxonomyDefs.filterMap (groupMk unwrapCategory classifyResponse supporting_signals)

/-- Insertion step for `sorted(...)` on id strings. -/
def insertSorted (x : String) : List String → List String
  | [] => [x]
  | y :: rest => if x ≤ y then x :: y :: rest else y :: insertSorted x rest

/-- Python `sorted(...)` on id strings (lexicographic insertion sort). -/
def sortStrings : List String → List String
  | [] => []
  | x :: rest => insertSorted x (sortStrings rest)

/-- The catch-all test of the auditor: `'other' in ps.get('title', '').lower()`. -/
def isCatchall (ps : PrimarySignal) : Bool :=
  isSubstring ("other".data) ((pyLower ps.title).data)

/-- Update the first list element satisfying the predicate (Python mutates the
object found by `next(...)` / `min(...)`, which is the first match). -/
def applyToFirst (p : PrimarySignal → Bool) (f : PrimarySignal → PrimarySignal) :
    List PrimarySignal → List PrimarySignal
  | [] => []
  | ps :: rest => if p ps then f ps :: rest else ps :: applyToFirst p f rest

/-- The minimal `len(supporting_signal_ids)` over the primaries (`min(...,
key=...)` picks the first primary attaining this). -/
def minIdsLen : List PrimarySignal → Nat
  | [] => 0
  | ps :: rest => rest.foldl (fun m q => min m q.supporting_signal_ids.length)
      ps.supporting_signal_ids.length

/-- The force-assignment branch of the auditor: extend the first catch-all
primary (title containing `other`), or else the first smallest primary, with
the sorted unassigned ids, then recompute every source distribution. -/
def auditForceAssign (supporting_signals : List SupportingSignal)
    (primary_signals : List PrimarySignal) (sorted_unassigned : List String) :
    List PrimarySignal :=
  (if primary_signals.any isCatchall then
    applyToFirst isCatchall
      (fun ps => { ps with supporting_signal_ids := ps.supporting_signal_ids ++ sorted_unassigned })
      primary_signals
  else
    applyToFirst (fun ps => ps.supporting_signal_ids.length == minIdsLen primary_signals)
      (fun ps => { ps with supporting_signal_ids := ps.supporting_signal_ids ++ sorted_unassigned })
      primary_signals).map
    (fun ps => { ps with source_distribution :=
        _calculate_source_distribution ps.supporting_signal_ids supporting_signals })

/-- The defensive auditor block of `analyze_company_risk` (lines 101-154):
compute the set of supporting ids not covered by any primary's
`supporting_signal_ids`; when empty, keep the primaries unchanged; otherwise
force-assign the stray ids (Python iterates a set difference; list filtering
plus `dedup` models the same set). -/
def analyze_company_risk_audit (supporting_signals : List SupportingSignal)
    (primary_signals : List PrimarySignal) : List PrimarySignal :=
  if ((supporting_signals.map (fun s => s.id)).filter
      (fun i => decide (i ∉ (primary_signals.map
        (fun ps => ps.supporting_signal_ids)).flatten))).isEmpty then
    primary_signals
  else
    auditForceAssign supporting_signals primary_signals
      (sortStrings (((supporting_signals.map (fun s => s.id)).filter
        (fun i => decide (i ∉ (primary_signals.map
          (fun ps => ps.supporting_signal_ids)).flatten))).dedup))

lemma mp_mem_taxonomyKeys : "MARKET_PERCEPTION" ∈ taxonomyKeys := by decide

lemma taxonomyKeys_nodup : taxonomyKeys.Nodup := by decide

lemma taxonomyDefs_keys : taxonomyDefs.map (fun cat => cat.key) = taxonomyKeys := rfl

lemma exists_cat_of_key {k : String} (h : k ∈ taxonomyKeys) :
    ∃ cat ∈ taxonomyDefs, cat.key = k := by
  rw [← taxonomyDefs_keys] at h
  obtain ⟨cat, hc, hk⟩ := List.mem_map.mp h
  exact ⟨cat, hc, hk⟩

lemma assignedCategory_mem (u : String → Option String)
    (c : SupportingSignal → Except String String) (s : SupportingSignal) :
    assignedCategory u c s ∈ taxonomyKeys := by
  simp only [assignedCategory]
  split
  · assumption
  · exact mp_mem_taxonomyKeys

lemma mem_categoryIds {u : String → Option String}
    {c : SupportingSignal → Except String String}
    {signals : List SupportingSignal} {key sid : String} :
    sid ∈ categoryIds u c signals key ↔
      ∃ s, s ∈ signals ∧ assignedCategory u c s = key ∧ s.id = sid := by
  simp only [categoryIds, List.mem_map, List.mem_filter, beq_iff_eq]
  constructor
  · rintro ⟨s, ⟨hs, hk⟩, rfl⟩
    exact ⟨s, hs, hk, rfl⟩
  · rintro ⟨s, hs, hk, rfl⟩
    exact ⟨s, ⟨hs, hk⟩, rfl⟩

lemma groupMk_eq_some {u : String → Option String}
    {c : SupportingSignal → Except String String}
    {signals : List SupportingSignal} {cat : CategoryDef} {ps : PrimarySignal}
    (h : groupMk u c signals cat = some ps) :
    ps.supporting_signal_ids = categoryIds u c signals cat.key := by
  rw [groupMk] at h
  split at h
  · simp at h
  · injection h with h2
    subst h2
    rfl

lemma groupMk_isSome_of_mem {u : String → Option String}
    {c : SupportingSignal → Except String String}
    {signals : List SupportingSignal} {cat : CategoryDef} {sid : String}
    (h : sid ∈ categoryIds u c signals cat.key) :
    ∃ ps, groupMk u c signals cat = some ps ∧
      ps.supporting_signal_ids = categoryIds u c signals cat.key := by
  rw [groupMk, if_neg]
  · exact ⟨_, rfl, rfl⟩
  · simp only [List.isEmpty_iff]
    exact List.ne_nil_of_mem h

lemma mem_group_flatten {u : String → Option String}
    {c : SupportingSignal → Except String String}
    {signals : List SupportingSignal} {sid : String} :
    sid ∈ ((_group_into_primary_signals u c signals).map
        (fun ps => ps.supporting_signal_ids)).flatten
      ↔ sid ∈ signals.map (fun s => s.id) := by
  by_cases hE : signals.isEmpty
  · rw [List.isEmpty_iff] at hE
    subst hE
    simp [_group_into_primary_signals]
  · rw [_group_into_primary_signals, if_neg hE]
    simp only [List.mem_flatten, List.mem_map]
    constructor
    · rintro ⟨ids, ⟨ps, hps, rfl⟩, hsid⟩
      obtain ⟨cat, hcat, hmk⟩ := List.mem_filterMap.mp hps
      rw [groupMk_eq_some hmk] at hsid
      obtain ⟨s, hs, -, hid⟩ := mem_categoryIds.mp hsid
      exact ⟨s, hs, hid⟩
    · rintro ⟨s, hs, rfl⟩
      obtain ⟨cat, hcat, hkey⟩ := exists_cat_of_key (assignedCategory_mem u c s)
      have hmem : s.id ∈ categoryIds u c signals cat.key :=
        mem_categoryIds.mpr ⟨s, hs, hkey.symm ▸ rfl, rfl⟩
      obtain ⟨ps, hmk, hids⟩ := groupMk_isSome_of_mem hmem
      exact ⟨ps.supporting_signal_ids, ⟨ps, List.mem_filterMap.mpr ⟨cat, hcat, hmk⟩, rfl⟩,
        hids ▸ hmem⟩

lemma countP_group_zero (u : String → Option String)
    (c : SupportingSignal → Except String String)
    (signals : List SupportingSignal) (sid : String) (cats : List CategoryDef)
    (h : ∀ cat ∈ cats, sid ∉ categoryIds u c signals cat.key) :
    (cats.filterMap (groupMk u c signals)).countP
      (fun ps => decide (sid ∈ ps.supporting_signal_ids)) = 0 := by
  induction cats with
  | nil => rfl
  | cons cat rest ih =>
    rw [List.filterMap_cons]
    cases hmk : groupMk u c signals cat with
    | none => exact ih (fun d hd => h d (List.mem_cons_of_mem _ hd))
    | some ps =>
      rw [List.countP_cons_of_neg]
      · exact ih (fun d hd => h d (List.mem_cons_of_mem _ hd))
      · simp only [decide_eq_true_eq, groupMk_eq_some hmk]
        exact h cat (List.mem_cons_self _ _)

lemma countP_group_one (u : String → Option String)
    (c : SupportingSignal → Except String String)
    (signals : List SupportingSignal) (sid k₀ : String) (cats : List CategoryDef)
    (hnd : (cats.map (fun cat => cat.key)).Nodup)
    (honly : ∀ k, k ≠ k₀ → sid ∉ categoryIds u c signals k)
    (hk : sid ∈ categoryIds u c signals k₀)
    (hmem : ∃ cat ∈ cats, cat.key = k₀) :
    (cats.filterMap (groupMk u c signals)).countP
      (fun ps => decide (sid ∈ ps.supporting_signal_ids)) = 1 := by
  induction cats with
  | nil => simp at hmem
  | cons cat rest ih =>
    rw [List.map_cons, List.nodup_cons] at hnd
    by_cases hkey : cat.key = k₀
    · have hbucket : sid ∈ categoryIds u c signals cat.key := hkey.symm ▸ hk
      obtain ⟨ps, hmk, hids⟩ := groupMk_isSome_of_mem hbucket
      rw [List.filterMap_cons, hmk, List.countP_cons_of_pos]
      · rw [countP_group_zero u c signals sid rest]
        intro d hd
        apply honly
        intro hdk
        apply hnd.1
        rw [hkey, ← hdk]
        exact List.mem_map.mpr ⟨d, hd, rfl⟩
      · simp only [decide_eq_true_eq, hids]
        exact hbucket
    · have hnot : sid ∉ categoryIds u c signals cat.key := honly _ hkey
      have hrest : ∃ d ∈ rest, d.key = k₀ := by
        obtain ⟨d, hd, hdk⟩ := hmem
        rcases List.mem_cons.mp hd with rfl | hd2
        · exact absurd hdk hkey
        · exact ⟨d, hd2, hdk⟩
      rw [List.filterMap_cons]
      cases hmk : groupMk u c signals cat with
      | none => exact ih hnd.2 hrest
      | some ps =>
        rw [List.countP_cons_of_neg]
        · exact ih hnd.2 hrest
        · simp only [decide_eq_true_eq, groupMk_eq_some hmk]
          exact hnot

/-- C2: after classification and the defensive auditor step, the
`supporting_signal_ids` of the primaries partition the supporting-signal ids:
the auditor is a no-op on the grouping's output (nothing is ever stray), the
union of all primaries' id lists is exactly the set of supporting ids, and
every supporting id lies in exactly one primary's id list (ids produced by a
pipeline run are pairwise distinct, which is the `Nodup` hypothesis). -/
theorem classification_partition (u : String → Option String)
    (c : SupportingSignal → Except String String) (signals : List SupportingSignal)
    (hnd : (signals.map (fun s => s.id)).Nodup) :
    analyze_company_risk_audit signals (_group_into_primary_signals u c signals)
        = _group_into_primary_signals u c signals
    ∧ (∀ sid, sid ∈ ((_group_into_primary_signals u c signals).map
          (fun ps => ps.supporting_signal_ids)).flatten
        ↔ sid ∈ signals.map (fun s => s.id))
    ∧ (∀ sid ∈ signals.map (fun s => s.id),
        (_group_into_primary_signals u c signals).countP
          (fun ps => decide (sid ∈ ps.supporting_signal_ids)) = 1) := by
  have haudit : analyze_company_risk_audit signals (_group_into_primary_signals u c signals)
      = _group_into_primary_signals u c signals := by
    rw [analyze_company_risk_audit, if_pos]
    rw [List.isEmpty_iff, List.filter_eq_nil_iff]
    intro a ha
    simp only [decide_eq_true_eq, not_not]
    exact mem_group_flatten.mpr ha
  refine ⟨haudit, fun sid => mem_group_flatten, ?_⟩
  intro sid hsid
  obtain ⟨s₀, hs₀, rfl⟩ := List.mem_map.mp hsid
  have hk₀ : s₀.id ∈ categoryIds u c signals (assignedCategory u c s₀) :=
    mem_categoryIds.mpr ⟨s₀, hs₀, rfl, rfl⟩
  have honly : ∀ k, k ≠ assignedCategory u c s₀ → s₀.id ∉ categoryIds u c signals k := by
    intro k hkne hmem2
    obtain ⟨s, hs, hak, hid⟩ := mem_categoryIds.mp hmem2
    have heq : s = s₀ := List.inj_on_of_nodup_map hnd hs hs₀ hid
    subst heq
    exact hkne hak.symm
  have hne : ¬ signals.isEmpty = true := by
    cases signals with
    | nil => simp at hs₀
    | cons a l => simp
  obtain ⟨cat0, hc0, hkey0⟩ := exists_cat_of_key (assignedCategory_mem u c s₀)
  rw [_group_into_primary_signals, if_neg hne]
  exact countP_group_one u c signals s₀.id (assignedCategory u c s₀) taxonomyDefs
    (by rw [taxonomyDefs_keys]; exact taxonomyKeys_nodup)
    honly hk₀ ⟨cat0, hc0, hkey0⟩

/-- C3: a classification whose oracle call raises, or whose post-processed
response (whitespace-stripped, JSON-`category`-unwrapped, quote-stripped) is
not one of the 8 taxonomy keys, yields `MARKET_PERCEPTION`; the classifier's
result is always one of the 8 keys (never an error), and in the grouping loop
a signal assigned `MARKET_PERCEPTION` lands in the `MARKET_PERCEPTION`
bucket. -/
theorem classification_invalid_default (u : String → Option String) :
    (∀ r : Except String String, _classify_single_signal u r taxonomyKeys ∈ taxonomyKeys)
    ∧ (∀ e : String,
        _classify_single_signal u (Except.error e) taxonomyKeys = "MARKET_PERCEPTION")
    ∧ (∀ r : String, processedCategory u r ∉ taxonomyKeys →
        _classify_single_signal u (Except.ok r) taxonomyKeys = "MARKET_PERCEPTION")
    ∧ (∀ (c : SupportingSignal → Except String String) (signals : List SupportingSignal)
        (s : SupportingSignal), s ∈ signals →
        assignedCategory u c s = "MARKET_PERCEPTION" →
        s.id ∈ categoryIds u c signals ("MARKET_PERCEPTION")) := by
  refine ⟨?_, ?_, ?_, ?_⟩
  · intro r
    rcases r with e | r
    · exact mp_mem_taxonomyKeys
    · simp only [_classify_single_signal]
      split
      · assumption
      · exact mp_mem_taxonomyKeys
  · intro e
    rfl
  · intro r h
    simp only [_classify_single_signal]
    rw [if_neg h]
  · intro c signals s hs hcat
    exact mem_categoryIds.mpr ⟨s, hs, hcat, rfl⟩

/-! ### Risk Scorer, Overall Risk Synthesizer, Risk Summary Generator -/

/-- Python `int(x)` on the engine's score values: truncation toward zero. -/
def truncQ (q : ℚ) : ℤ := Int.tdiv q.num q.den

lemma truncQ_eq_floor (q : ℚ) (h : 0 ≤ q) : truncQ q = ⌊q⌋ := by
  rw [truncQ, Rat.floor_def]
  exact Int.tdiv_eq_ediv (Rat.num_nonneg.mpr h) (by positivity)

/-- One entry of an oracle scoring response (`{id, risk_score, risk_reasoning}`). -/
structure ScoredEntry where
  id : String
  risk_score : Int
  risk_reasoning : String
  deriving DecidableEq

/-- A SupportingSignal after `_add_ai_risk_scores_to_supporting_signals`. -/
structure ScoredSupportingSignal where
  id : String
  title : String
  source_type : String
  timeframe : String
  evidence : String
  evidence_url : Option String
  severity : String
  risk_score : Int
  risk_reasoning : String
  deriving DecidableEq

/-- Copy a supporting signal and attach `risk_score` / `risk_reasoning`. -/
def withScore (s : SupportingSignal) (score : Int) (reasoning : String) : ScoredSupportingSignal :=
  { id := s.id, title := s.title, source_type := s.source_type, timeframe := s.timeframe,
    evidence := s.evidence, evidence_url := s.evidence_url, severity := s.severity,
    risk_score := score, risk_reasoning := reasoning }

/-- Python dict built by `{s['id']: s for s in entries}`: on duplicate ids the
last entry wins. -/
def entryFor (entries : List ScoredEntry) (sid : String) : Option ScoredEntry :=
  entries.reverse.find? (fun e => e.id == sid)

/-- The `severity_scores` dict of the fallback path, read with
`.get(severity, 50)`. -/
def severity_scores (severity : String) : Int :=
  if severity = "high" then 75
  else if severity = "medium" then 50
  else if severity = "low" then 25
  else 50

/-- `_add_ai_risk_scores_to_supporting_signals`: on oracle success attach the
per-id scores (defaults 50 / "Risk assessment pending" for unscored ids); on
any failure (query or JSON parsing, abstracted in `oracle`) every signal gets
the deterministic severity mapping and a fixed reasoning string. -/
def _add_ai_risk_scores_to_supporting_signals
    (oracle : Except String (List ScoredEntry))
    (supporting_signals : List SupportingSignal) : List ScoredSupportingSignal :=
  if supporting_signals.isEmpty then []
  else
    match oracle with
    | Except.ok entries =>
      supporting_signals.map (fun s =>
        match entryFor entries s.id with
        | some e => withScore s e.risk_score e.risk_reasoning
        | none => withScore s 50 ("Risk assessment pending"))
    | Except.error _ =>
      supporting_signals.map (fun s =>
        withScore s (severity_scores s.severity) ("Default risk assessment based on severity"))

/-- A PrimarySignal after `_add_ai_risk_scores_to_primary_signals`. -/
structure ScoredPrimarySignal where
  id : String
  title : String
  description : String
  risk_level : String
  supporting_signal_ids : List String
  key_indicators : List String
  source_distribution : SourceDistribution
  risk_score : Int
  risk_reasoning : String
  deriving DecidableEq

/-- Copy a primary signal and attach `risk_score` / `risk_reasoning`. -/
def withPrimaryScore (p : PrimarySignal) (score : Int) (reasoning : String) :
    ScoredPrimarySignal :=
  { id := p.id, title := p.title, description := p.description, risk_level := p.risk_level,
    supporting_signal_ids := p.supporting_signal_ids, key_indicators := p.key_indicators,
    source_distribution := p.source_distribution, risk_score := score,
    risk_reasoning := reasoning }

/-- Python dict `{s['id']: s for s in supporting_signals}` (last wins). -/
def supportingById (supporting : List ScoredSupportingSignal) (sid : String) :
    Option ScoredSupportingSignal :=
  supporting.reverse.find? (fun s => s.id == sid)

/-- `[supporting_map[sid]['risk_score'] for sid in supporting_ids if sid in
supporting_map]`. -/
def supportingScoresFor (supporting : List ScoredSupportingSignal) (ids : List String) :
    List Int :=
  ids.filterMap (fun sid => (supportingById supporting sid).map (fun s => s.risk_score))

/-- Decimal formatting `f'{x:.1f}'` of the reasoning strings, modelled by exact
rounding of the rational to one decimal place (half away from zero; the float
tie behaviour is irrelevant to every claim, which never inspects reasoning). -/
def fmt1 (q : ℚ) : String :=
  (if q < 0 then "-" else "") ++
    toString ((truncQ (q * 10 + (if q < 0 then -(1:ℚ)/2 else (1:ℚ)/2))).natAbs / 10) ++
    "." ++ toString ((truncQ (q * 10 + (if q < 0 then -(1:ℚ)/2 else (1:ℚ)/2))).natAbs % 10)

/-- The per-primary fallback of `_add_ai_risk_scores_to_primary_signals`
(`except` branch): average the risk scores of the supporting signals found in
the map, add a volume boost of `+2` per signal capped at `+10`, cap at 100 and
truncate to an integer; with no scores, 50 and a fixed reasoning. -/
def fallbackPrimaryScore (supporting : List ScoredSupportingSignal) (p : PrimarySignal) :
    ScoredPrimarySignal :=
  if (supportingScoresFor supporting p.supporting_signal_ids).isEmpty then
    withPrimaryScore p 50 ("No supporting signals available for scoring")
  else
    withPrimaryScore p
      (truncQ (min
        (((supportingScoresFor supporting p.supporting_signal_ids).sum : ℚ)
            / ((supportingScoresFor supporting p.supporting_signal_ids).length : ℚ)
          + ((min ((supportingScoresFor supporting p.supporting_signal_ids).length * 2) 10
              : Nat) : ℚ))
        100))
      ("Calculated from "
        ++ toString (supportingScoresFor supporting p.supporting_signal_ids).length
        ++ " supporting signals (avg: "
        ++ fmt1 (((supportingScoresFor supporting p.supporting_signal_ids).sum : ℚ)
            / ((supportingScoresFor supporting p.supporting_signal_ids).length : ℚ))
        ++ ", +"
        ++ toString (min ((supportingScoresFor supporting p.supporting_signal_ids).length * 2) 10)
        ++ " volume boost)")

/-- `_add_ai_risk_scores_to_primary_signals`: on oracle success attach per-id
scores (defaults 60 / "Risk assessment pending"); on failure compute every
primary's score deterministically from its supporting signals. -/
def _add_ai_risk_scores_to_primary_signals
    (oracle : Except String (List ScoredEntry))
    (primary_signals : List PrimarySignal)
    (supporting_signals : List ScoredSupportingSignal) : List ScoredPrimarySignal :=
  if primary_signals.isEmpty then []
  else
    match oracle with
    | Except.ok entries =>
      primary_signals.map (fun p =>
        match entryFor entries p.id with
        | some e => withPrimaryScore p e.risk_score e.risk_reasoning
        | none => withPrimaryScore p 60 ("Risk assessment pending"))
    | Except.error _ =>
      primary_signals.map (fallbackPrimaryScore supporting_signals)

/-- The overall risk record (`score`, `level`, `confidence`, `reasoning`). -/
structure OverallRiskScore where
  score : Int
  level : String
  confidence : String
  reasoning : String
  deriving DecidableEq

/-- `_calculate_overall_risk_score`: zero primaries short-circuit to the
insufficient-data record before any oracle call; the oracle's JSON is
otherwise returned as-is; on oracle failure the fallback truncates the mean
of the primary scores and derives level/confidence deterministically. -/
def _calculate_overall_risk_score (oracle : Except String OverallRiskScore)
    (primary_signals : List ScoredPrimarySignal) : OverallRiskScore :=
  if primary_signals.isEmpty then
    { score := 0, level := "minimal", confidence := "low",
      reasoning := "Insufficient data for comprehensive risk assessment" }
  else
    match oracle with
    | Except.ok result => result
    | Except.error _ =>
      { score := truncQ ((((primary_signals.map (fun p => p.risk_score)).sum : ℤ) : ℚ)
          / (primary_signals.length : ℚ))
        level := if ((((primary_signals.map (fun p => p.risk_score)).sum : ℤ) : ℚ)
            / (primary_signals.length : ℚ)) < 60 then "moderate" else "high"
        confidence := "medium"
        reasoning := "Calculated from " ++ toString primary_signals.length
          ++ " primary signals with average risk score of "
          ++ fmt1 ((((primary_signals.map (fun p => p.risk_score)).sum : ℤ) : ℚ)
              / (primary_signals.length : ℚ)) }

/-- The risk-summary record.  The degenerate (empty) record carries no count
keys in the source, modelled by the `Option` fields being `none`. -/
structure RiskSummary where
  overall_risk : String
  confidence : String
  summary : String
  recommendation : String
  primary_signal_count : Option Nat
  high_risk_signals : Option Nat
  deriving DecidableEq

/-- `_get_recommendation`: the fixed 3-entry table with default
"Continue monitoring". -/
def _get_recommendation (risk_level : String) : String :=
  if risk_level = "high" then
    "Immediate attention required. Consider detailed due diligence and risk mitigation strategies."
  else if risk_level = "medium" then
    "Monitor closely. Review specific risk areas and develop contingency plans."
  else if risk_level = "low" then
    "Maintain standard monitoring procedures. Continue tracking key indicators."
  else "Continue monitoring"

/-- `_generate_risk_summary` (deterministic, no oracle call; its
`financial_data` argument is never read). -/
def _generate_risk_summary (company_name : String)
    (primary_signals : List ScoredPrimarySignal) : RiskSummary :=
  if primary_signals.isEmpty then
    { overall_risk := "low", confidence := "low",
      summary := "Insufficient data for comprehensive risk analysis",
      recommendation := "Gather more data from multiple sources",
      primary_signal_count := none, high_risk_signals := none }
  else
    { overall_risk :=
        if ((primary_signals.countP (fun ps => ps.risk_level == "high") : ℚ)
            ≥ (primary_signals.length : ℚ) * 0.6) then "high"
        else if ((primary_signals.countP (fun ps => ps.risk_level == "high") : ℚ)
            ≥ (primary_signals.length : ℚ) * 0.3) then "medium"
        else "low"
      confidence := if 3 ≤ primary_signals.length then "high" else "medium"
      summary := "Analysis identified " ++ toString primary_signals.length
        ++ " primary risk categories for " ++ company_name
        ++ (if ((primary_signals.take 3).map (fun ps => ps.title)).isEmpty then ""
            else ", including "
              ++ String.intercalate (", ") ((primary_signals.take 3).map (fun ps => ps.title)))
      recommendation := _get_recommendation
        (if ((primary_signals.countP (fun ps => ps.risk_level == "high") : ℚ)
            ≥ (primary_signals.length : ℚ) * 0.6) then "high"
        else if ((primary_signals.countP (fun ps => ps.risk_level == "high") : ℚ)
            ≥ (primary_signals.length : ℚ) * 0.3) then "medium"
        else "low")
      primary_signal_count := some primary_signals.length
      high_risk_signals := some (primary_signals.countP (fun ps => ps.risk_level == "high")) }

/-! ### Theorems about the scoring stages -/

/-- C4: in the oracle-failure path of `_add_ai_risk_scores_to_primary_signals`
every primary is scored by `fallbackPrimaryScore`, and for a primary with a
non-empty list of scored supporting signals the resulting risk score is
exactly `int(min(mean(scores) + min(2 * count, 10), 100))`; for scores in the
0-100 range of the rubric the result never falls below the mean and never
exceeds it by more than 10. -/
theorem primary_fallback_score_formula (supporting : List ScoredSupportingSignal)
    (p : PrimarySignal)
    (hne : supportingScoresFor supporting p.supporting_signal_ids ≠ [])
    (hb : ∀ x ∈ supportingScoresFor supporting p.supporting_signal_ids, 0 ≤ x ∧ x ≤ 100) :
    (∀ (e : String) (primaries : List PrimarySignal),
        _add_ai_risk_scores_to_primary_signals (Except.error e) primaries supporting
          = primaries.map (fallbackPrimaryScore supporting))
    ∧ (fallbackPrimaryScore supporting p).risk_score
        = truncQ (min
            (((supportingScoresFor supporting p.supporting_signal_ids).sum : ℚ)
                / ((supportingScoresFor supporting p.supporting_signal_ids).length : ℚ)
              + ((min ((supportingScoresFor supporting p.supporting_signal_ids).length * 2) 10
                  : Nat) : ℚ))
            100)
    ∧ ((supportingScoresFor supporting p.supporting_signal_ids).sum : ℚ)
          / ((supportingScoresFor supporting p.supporting_signal_ids).length : ℚ)
        ≤ ((fallbackPrimaryScore supporting p).risk_score : ℚ)
    ∧ ((fallbackPrimaryScore supporting p).risk_score : ℚ)
        ≤ ((supportingScoresFor supporting p.supporting_signal_ids).sum : ℚ)
            / ((supportingScoresFor supporting p.supporting_signal_ids).length : ℚ) + 10 := by
  have hstage : ∀ (e : String) (primaries : List PrimarySignal),
      _add_ai_risk_scores_to_primary_signals (Except.error e) primaries supporting
        = primaries.map (fallbackPrimaryScore supporting) := by
    intro e primaries
    cases primaries with
    | nil => rfl
    | cons a l => rfl
  have hEmpty : (supportingScoresFor supporting p.supporting_signal_ids).isEmpty = false := by
    cases hsc : (supportingScoresFor supporting p.supporting_signal_ids).isEmpty
    · rfl
    · exact absurd (List.isEmpty_iff.mp hsc) hne
  have hscore : (fallbackPrimaryScore supporting p).risk_score
      = truncQ (min
          (((supportingScoresFor supporting p.supporting_signal_ids).sum : ℚ)
              / ((supportingScoresFor supporting p.supporting_signal_ids).length : ℚ)
            + ((min ((supportingScoresFor supporting p.supporting_signal_ids).length * 2) 10
                : Nat) : ℚ))
          100) := by
    rw [fallbackPrimaryScore, if_neg (by simp [hEmpty])]
    rfl
  set scores := supportingScoresFor supporting p.supporting_signal_ids with hsc
  refine ⟨hstage, hscore, ?_, ?_⟩
  all_goals {
    have hn : 0 < scores.length := List.length_pos.mpr hne
    have hnQ : (0:ℚ) < (scores.length : ℚ) := by exact_mod_cast hn
    have hS0 : (0:ℚ) ≤ (scores.sum : ℚ) := by
      have : (0:ℤ) ≤ scores.sum := List.sum_nonneg (fun x hx => (hb x hx).1)
      exact_mod_cast this
    have hS100 : (scores.sum : ℚ) ≤ 100 * (scores.length : ℚ) := by
      have h1 : scores.sum ≤ (scores.length : ℤ) * 100 := by
        have := List.sum_le_card_nsmul scores 100 (fun x hx => (hb x hx).2)
        simpa [nsmul_eq_mul] using this
      have h2 : (scores.sum : ℚ) ≤ ((scores.length : ℤ) * 100 : ℤ) := by exact_mod_cast h1
      push_cast at h2 ⊢
      linarith
    have hbase0 : (0:ℚ) ≤ (scores.sum : ℚ) / (scores.length : ℚ) :=
      div_nonneg hS0 (le_of_lt hnQ)
    have hbase100 : (scores.sum : ℚ) / (scores.length : ℚ) ≤ 100 := by
      rw [div_le_iff₀ hnQ]
      linarith
    have hb2 : (2:ℚ) ≤ ((min (scores.length * 2) 10 : Nat) : ℚ) := by
      have : 2 ≤ min (scores.length * 2) 10 := Nat.le_min.mpr ⟨by omega, by omega⟩
      exact_mod_cast this
    have hb10 : ((min (scores.length * 2) 10 : Nat) : ℚ) ≤ 10 := by
      have : min (scores.length * 2) 10 ≤ 10 := Nat.min_le_right _ _
      exact_mod_cast this
    have hval0 : (0:ℚ) ≤ min ((scores.sum : ℚ) / (scores.length : ℚ)
        + ((min (scores.length * 2) 10 : Nat) : ℚ)) 100 :=
      le_min (by linarith) (by norm_num)
    rw [hscore, truncQ_eq_floor _ hval0]
    rcases le_total ((scores.sum : ℚ) / (scores.length : ℚ)
        + ((min (scores.length * 2) 10 : Nat) : ℚ)) 100 with hc | hc
    · rw [min_eq_left hc]
      have hfl := Int.sub_one_lt_floor ((scores.sum : ℚ) / (scores.length : ℚ)
        + ((min (scores.length * 2) 10 : Nat) : ℚ))
      have hfu := Int.floor_le ((scores.sum : ℚ) / (scores.length : ℚ)
        + ((min (scores.length * 2) 10 : Nat) : ℚ))
      linarith
    · rw [min_eq_right hc]
      have h100 : ⌊(100:ℚ)⌋ = 100 := by norm_num [Int.floor_eq_iff]
      rw [h100]
      have hcast : ((100:ℤ):ℚ) = (100:ℚ) := by norm_num
      rw [hcast]
      linarith
  }

/-- Concrete supporting signals with risk scores 20, 20, 25 (C4 witness data). -/
def witnessSupporting4 : List ScoredSupportingSignal :=
  [{ id := "ss_1", title := "t1", source_type := "news", timeframe := "2020", evidence := "",
     evidence_url := none, severity := "medium", risk_score := 20, risk_reasoning := "" },
   { id := "ss_2", title := "t2", source_type := "news", timeframe := "2021", evidence := "",
     evidence_url := none, severity := "medium", risk_score := 20, risk_reasoning := "" },
   { id := "ss_3", title := "t3", source_type := "social", timeframe := "2022", evidence := "",
     evidence_url := none, severity := "low", risk_score := 25, risk_reasoning := "" }]

/-- A primary signal grouping the three witness supporting signals. -/
def witnessPrimary4 : PrimarySignal :=
  { id := "ps_3", title := "WORKFORCE ISSUES", description := "d", risk_level := "high",
    supporting_signal_ids := ["ss_1", "ss_2", "ss_3"], key_indicators := [],
    source_distribution := { news := 2, social := 1, financial := 0 } }

/-- Witness for C4: at supporting scores [20, 20, 25] the fallback primary
score is `int(21.67 + 6) = 27`. -/
theorem primary_fallback_score_formula_witness :
    (fallbackPrimaryScore witnessSupporting4 witnessPrimary4).risk_score = 27 := by
  have h := primary_fallback_score_formula witnessSupporting4 witnessPrimary4
    (by decide) (by decide)
  rw [h.2.1]
  have hscores : supportingScoresFor witnessSupporting4 witnessPrimary4.supporting_signal_ids
      = [20, 20, 25] := by decide
  rw [hscores]
  have hmin : min ((([20, 20, 25] : List Int).sum : ℚ) / (([20, 20, 25] : List Int).length : ℚ)
      + ((min (([20, 20, 25] : List Int).length * 2) 10 : Nat) : ℚ)) 100 = 83/3 := by
    rw [min_eq_left] <;> norm_num
  rw [hmin, truncQ_eq_floor _ (by norm_num)]
  norm_num [Int.floor_eq_iff]

/-- Concrete scored primaries with risk scores 20, 21, 21 (C5 data). -/
def overallPrimaries5 : List ScoredPrimarySignal :=
  [{ id := "ps_1", title := "OPERATIONAL DEGRADATION", description := "", risk_level := "high",
     supporting_signal_ids := [], key_indicators := [], source_distribution := ⟨0, 0, 0⟩,
     risk_score := 20, risk_reasoning := "" },
   { id := "ps_2", title := "FINANCIAL DISTRESS", description := "", risk_level := "medium",
     supporting_signal_ids := [], key_indicators := [], source_distribution := ⟨0, 0, 0⟩,
     risk_score := 21, risk_reasoning := "" },
   { id := "ps_3", title := "WORKFORCE ISSUES", description := "", risk_level := "medium",
     supporting_signal_ids := [], key_indicators := [], source_distribution := ⟨0, 0, 0⟩,
     risk_score := 21, risk_reasoning := "" }]

lemma overallPrimaries5_mean :
    (((overallPrimaries5.map (fun p => p.risk_score)).sum : ℤ) : ℚ)
      / (overallPrimaries5.length : ℚ) = 62/3 := by
  norm_num [overallPrimaries5]

/-- C5 counterexample: the overall fallback uses `int(avg)` (truncation), not
`round(avg)`: at primary scores [20, 21, 21] the mean is 62/3 = 20.67, the
code returns 20 while `round` of the mean is 21. -/
theorem overall_fallback_not_round :
    (_calculate_overall_risk_score (Except.error ("oracle failure"))
        overallPrimaries5).score = 20
    ∧ round ((((overallPrimaries5.map (fun p => p.risk_score)).sum : ℤ) : ℚ)
        / (overallPrimaries5.length : ℚ)) = 21
    ∧ (_calculate_overall_risk_score (Except.error ("oracle failure"))
        overallPrimaries5).score
      ≠ round ((((overallPrimaries5.map (fun p => p.risk_score)).sum : ℤ) : ℚ)
        / (overallPrimaries5.length : ℚ)) := by
  have hscore : (_calculate_overall_risk_score (Except.error ("oracle failure"))
      overallPrimaries5).score = 20 := by
    show truncQ ((((overallPrimaries5.map (fun p => p.risk_score)).sum : ℤ) : ℚ)
        / (overallPrimaries5.length : ℚ)) = 20
    rw [overallPrimaries5_mean, truncQ_eq_floor _ (by norm_num)]
    norm_num [Int.floor_eq_iff]
  have hround : round ((((overallPrimaries5.map (fun p => p.risk_score)).sum : ℤ) : ℚ)
      / (overallPrimaries5.length : ℚ)) = 21 := by
    rw [overallPrimaries5_mean]
    norm_num [round_eq, Int.floor_eq_iff]
  exact ⟨hscore, hround, by rw [hscore, hround]; decide⟩

/-- C5 (amended): for every non-empty list of scored primaries the
oracle-failure fallback of `_calculate_overall_risk_score` returns
`int(mean)` — truncation, not rounding — as the score; the level is
`"moderate"` when the mean is below 60 and `"high"` otherwise (equivalently,
for the nonnegative scores of the rubric, iff the returned score is at least
60); and the confidence is `"medium"`. -/
theorem overall_fallback_truncates (e : String) (primaries : List ScoredPrimarySignal)
    (h : primaries ≠ []) :
    (_calculate_overall_risk_score (Except.error e) primaries).score
        = truncQ ((((primaries.map (fun p => p.risk_score)).sum : ℤ) : ℚ) / (primaries.length : ℚ))
    ∧ (_calculate_overall_risk_score (Except.error e) primaries).level
        = (if ((((primaries.map (fun p => p.risk_score)).sum : ℤ) : ℚ) / (primaries.length : ℚ)) < 60
           then "moderate" else "high")
    ∧ ((∀ p ∈ primaries, 0 ≤ p.risk_score) →
        ((_calculate_overall_risk_score (Except.error e) primaries).level = "high"
          ↔ 60 ≤ (_calculate_overall_risk_score (Except.error e) primaries).score))
    ∧ (_calculate_overall_risk_score (Except.error e) primaries).confidence = "medium" := by
  have hEmpty : primaries.isEmpty = false := by
    cases primaries with
    | nil => exact absurd rfl h
    | cons a l => rfl
  have hunfold : _calculate_overall_risk_score (Except.error e) primaries
      = { score := truncQ ((((primaries.map (fun p => p.risk_score)).sum : ℤ) : ℚ)
            / (primaries.length : ℚ))
          level := if ((((primaries.map (fun p => p.risk_score)).sum : ℤ) : ℚ)
              / (primaries.length : ℚ)) < 60 then "moderate" else "high"
          confidence := "medium"
          reasoning := "Calculated from " ++ toString primaries.length
            ++ " primary signals with average risk score of "
            ++ fmt1 ((((primaries.map (fun p => p.risk_score)).sum : ℤ) : ℚ)
                / (primaries.length : ℚ)) } := by
    rw [_calculate_overall_risk_score, if_neg (by simp [hEmpty])]
  rw [hunfold]
  refine ⟨rfl, rfl, ?_, rfl⟩
  intro hnn
  dsimp only
  have hn : 0 < primaries.length := List.length_pos.mpr h
  have hnQ : (0:ℚ) < (primaries.length : ℚ) := by exact_mod_cast hn
  have hS0 : (0:ℚ) ≤ (((primaries.map (fun p => p.risk_score)).sum : ℤ) : ℚ) := by
    have : (0:ℤ) ≤ (primaries.map (fun p => p.risk_score)).sum := by
      apply List.sum_nonneg
      intro x hx
      obtain ⟨q, hq, rfl⟩ := List.mem_map.mp hx
      exact hnn q hq
    exact_mod_cast this
  have havg0 : (0:ℚ) ≤ (((primaries.map (fun p => p.risk_score)).sum : ℤ) : ℚ)
      / (primaries.length : ℚ) := div_nonneg hS0 (le_of_lt hnQ)
  rw [truncQ_eq_floor _ havg0]
  constructor
  · intro hlevel
    by_cases hlt : ((((primaries.map (fun p => p.risk_score)).sum : ℤ) : ℚ)
        / (primaries.length : ℚ)) < 60
    · rw [if_pos hlt] at hlevel
      exact absurd hlevel (by decide)
    · push_neg at hlt
      exact Int.le_floor.mpr (by exact_mod_cast hlt)
  · intro hge
    rw [if_neg]
    push_neg
    have h1 : (60:ℚ) ≤ ((⌊(((primaries.map (fun p => p.risk_score)).sum : ℤ) : ℚ)
        / (primaries.length : ℚ)⌋ : ℤ) : ℚ) := by exact_mod_cast hge
    exact le_trans h1 (Int.floor_le _)

/-- Witness for C5 (amended) at primary scores [20, 21, 21]: the truncated
mean 20, level moderate (mean below 60), confidence medium. -/
theorem overall_fallback_truncates_witness :
    (_calculate_overall_risk_score (Except.error ("oracle failure"))
        overallPrimaries5).score = 20
    ∧ (_calculate_overall_risk_score (Except.error ("oracle failure"))
        overallPrimaries5).level = "moderate"
    ∧ (_calculate_overall_risk_score (Except.error ("oracle failure"))
        overallPrimaries5).confidence = "medium" := by
  have h := overall_fallback_truncates "oracle failure" overallPrimaries5 (by decide)
  refine ⟨?_, ?_, h.2.2.2⟩
  · rw [h.1, overallPrimaries5_mean, truncQ_eq_floor _ (by norm_num)]
    norm_num [Int.floor_eq_iff]
  · rw [h.2.1, overallPrimaries5_mean, if_pos (by norm_num)]

/-- C6: when the supporting-signal scoring oracle fails (exception or
malformed output), every SupportingSignal receives the deterministic score
`{high: 75, medium: 50, low: 25}` keyed by its own severity, with the fixed
fallback reasoning string; the stage is total, so no oracle failure
propagates to the caller. -/
theorem supporting_score_fallback (e : String) (signals : List SupportingSignal) :
    _add_ai_risk_scores_to_supporting_signals (Except.error e) signals
      = signals.map (fun s =>
          withScore s (severity_scores s.severity) ("Default risk assessment based on severity"))
    ∧ severity_scores "high" = 75
    ∧ severity_scores "medium" = 50
    ∧ severity_scores "low" = 25 := by
  refine ⟨?_, by decide, by decide, by decide⟩
  cases signals with
  | nil => rfl
  | cons a l => rfl

/-- C7: with zero primary signals, `_calculate_overall_risk_score` returns
exactly `{score: 0, level: "minimal", confidence: "low"}` with the
insufficient-data reasoning (before any oracle call, hence for every oracle
behaviour), and `_generate_risk_summary` returns overall risk "low" with
confidence "low", regardless of the company or any other input. -/
theorem zero_signals_degenerate (oracle : Except String OverallRiskScore)
    (company_name : String) :
    _calculate_overall_risk_score oracle []
        = { score := 0, level := "minimal", confidence := "low",
            reasoning := "Insufficient data for comprehensive risk assessment" }
    ∧ (_generate_risk_summary company_name []).overall_risk = "low"
    ∧ (_generate_risk_summary company_name []).confidence = "low" :=
  ⟨rfl, rfl, rfl⟩

/-- C8: for a non-empty list of primaries, `_generate_risk_summary` computes
`overall_risk` from the ratio of high-risk primaries to the total with
thresholds 0.6 and 0.3, the confidence is "high" exactly when the total is at
least 3, and the recommendation is the fixed table lookup keyed by the
computed overall risk. -/
theorem risk_summary_thresholds (company_name : String)
    (primaries : List ScoredPrimarySignal) (h : primaries ≠ []) :
    (_generate_risk_summary company_name primaries).overall_risk
        = (if ((primaries.countP (fun ps => ps.risk_level == "high") : ℚ)
              ≥ (primaries.length : ℚ) * 0.6) then "high"
          else if ((primaries.countP (fun ps => ps.risk_level == "high") : ℚ)
              ≥ (primaries.length : ℚ) * 0.3) then "medium"
          else "low")
    ∧ (_generate_risk_summary company_name primaries).confidence
        = (if 3 ≤ primaries.length then "high" else "medium")
    ∧ (_generate_risk_summary company_name primaries).recommendation
        = _get_recommendation ((_generate_risk_summary company_name primaries).overall_risk)
    := by
  have hEmpty : primaries.isEmpty = false := by
    cases primaries with
    | nil => exact absurd rfl h
    | cons a l => rfl
  rw [_generate_risk_summary, if_neg (by simp [hEmpty])]
  exact ⟨rfl, rfl, rfl⟩

/-- Concrete scored primaries: 3 total, 2 with `risk_level == "high"` (C8 data). -/
def witnessPrimaries8 : List ScoredPrimarySignal :=
  [{ id := "ps_1", title := "OPERATIONAL DEGRADATION", description := "", risk_level := "high",
     supporting_signal_ids := [], key_indicators := [], source_distribution := ⟨0, 0, 0⟩,
     risk_score := 70, risk_reasoning := "" },
   { id := "ps_3", title := "WORKFORCE ISSUES", description := "", risk_level := "high",
     supporting_signal_ids := [], key_indicators := [], source_distribution := ⟨0, 0, 0⟩,
     risk_score := 80, risk_reasoning := "" },
   { id := "ps_5", title := "MARKET PERCEPTION", description := "", risk_level := "medium",
     supporting_signal_ids := [], key_indicators := [], source_distribution := ⟨0, 0, 0⟩,
     risk_score := 40, risk_reasoning := "" }]

/-- Witness for C8: with total 3 and 2 high-risk primaries, `2 >= 1.8` gives
overall risk "high" and `total >= 3` gives confidence "high". -/
theorem risk_summary_thresholds_witness :
    (_generate_risk_summary ("ACME") witnessPrimaries8).overall_risk = "high"
    ∧ (_generate_risk_summary ("ACME") witnessPrimaries8).confidence = "high" := by
  have h := risk_summary_thresholds "ACME" witnessPrimaries8 (by decide)
  have hcount : witnessPrimaries8.countP (fun ps => ps.risk_level == "high") = 2 := by decide
  have hlen : witnessPrimaries8.length = 3 := by decide
  constructor
  · rw [h.1, hcount, hlen, if_pos (by norm_num)]
  · rw [h.2.1, hlen, if_pos (by norm_num)]

/-! ### Concrete witnesses for the hypothesis-bearing theorems -/

/-- An unwrapper that always keeps the raw string (JSON decode failure path). -/
def witnessUnwrap : String → Option String := fun _ => none

/-- A classify oracle answering `WORKFORCE_ISSUES` for `ss_1` and raising for
every other signal. -/
def witnessClassify : SupportingSignal → Except String String :=
  fun s => if s.id = "ss_1" then Except.ok ("WORKFORCE_ISSUES") else Except.error ("boom")

/-- Two supporting signals with distinct ids (C2 witness data). -/
def witnessSignals2 : List SupportingSignal :=
  [{ id := "ss_1", title := "t1", source_type := "news", timeframe := "2020", evidence := "e1",
     evidence_url := some ("http://a"), severity := "medium" },
   { id := "ss_2", title := "t2", source_type := "social", timeframe := "2021", evidence := "",
     evidence_url := some ("http://b"), severity := "medium" }]

/-- Witness for C2: on two concrete signals (one classified, one on the
error-default path), `ss_1` lies in exactly one primary's id list. -/
theorem classification_partition_witness :
    (_group_into_primary_signals witnessUnwrap witnessClassify witnessSignals2).countP
      (fun ps => decide (("ss_1" : String) ∈ ps.supporting_signal_ids)) = 1 := by
  have h := classification_partition witnessUnwrap witnessClassify witnessSignals2 (by decide)
  exact h.2.2 "ss_1" (by decide)

/-- Witness for C3: an out-of-taxonomy response string is mapped to
`MARKET_PERCEPTION`. -/
theorem classification_invalid_default_witness :
    _classify_single_signal (fun _ => none) (Except.ok ("TOTALLY_BOGUS")) taxonomyKeys
      = "MARKET_PERCEPTION" :=
  (classification_invalid_default (fun _ => none)).2.2.1 "TOTALLY_BOGUS" (by decide)

/-- A social raw signal whose `url` field resolves through the alias chain
(C9 witness data). -/
def witnessSocialRaw : RawSignal :=
  { post_title := "Layoffs discussed on forum",
    extracted_text := some ("Some discussion body."),
    created_date := "2024-05-01",
    url := "http://example.com/post" }

/-- Witness for C9: the social signal with a resolved URL gets an empty
evidence body. -/
theorem social_evidence_suppression_witness :
    (socialSupportingSignal (fun _ _ _ => "Layoffs discussed") (fun _ => none) 1
        witnessSocialRaw).evidence = "" :=
  (social_evidence_suppression (fun _ _ _ => "Layoffs discussed") (fun _ => none)).1 1
    witnessSocialRaw (by decide)

/-- A news raw signal (C10 witness data). -/
def witnessNewsRaw : RawSignal :=
  { headline := "Store closure announced",
    extracted_text := some ("The company announced a store closure affecting workers."),
    published_date := "2023-08-01",
    source_url := "http://example.com/news" }

/-- Witness for C10: the signal normalized from the concrete news record has
evidence within the 700-character cap and severity "medium". -/
theorem normalizer_evidence_cap_witness :
    (newsSupportingSignal (fun _ _ _ => "Store closure") 1 witnessNewsRaw).evidence.length ≤ 700
    ∧ (newsSupportingSignal (fun _ _ _ => "Store closure") 1 witnessNewsRaw).severity
        = "medium" :=
  normalizer_evidence_cap_and_default_severity (fun _ _ _ => "Store closure")
    (fun _ => none) [witnessNewsRaw] []
    (newsSupportingSignal (fun _ _ _ => "Store closure") 1 witnessNewsRaw) (by decide)

end HypothesisEngine
